import Mathlib

/-!
Shallow embedding of the alert classification and rendering pipeline of
`alertbot.py` (functions `get_alert_type`, `get_alert_messages`,
`convert_slack_webhook_to_markdown`, `grafana_alert_to_markdown`,
`prometheus_alert_to_markdown`, `uptime_kuma_alert_to_markdown`,
`uptime_kuma_resolved_to_markdown`, `dict_to_markdown`).

Payloads are decoded JSON values (the output of `json.loads`), modelled by the
inductive `Json` below.  Fallible Python operations (subscripting, `in` on a
non-container, iteration over a non-iterable, `str.join` over non-strings)
are modelled in the `Except PyErr` monad, with one `PyErr` constructor per
Python exception class that the source code can raise or catch.
-/

namespace Alertbot

/-- A decoded JSON value, as produced by `json.loads`.  JSON numbers are
modelled by integers (the payloads in this development use no floats);
object keys are strings, kept in insertion order like a Python `dict`. -/
inductive Json where
  | null
  | bool (b : Bool)
  | int (i : Int)
  | str (s : String)
  | arr (elems : List Json)
  | obj (fields : List (String × Json))

/-- The Python exception classes raised or caught by the source code. -/
inductive PyErr where
  | keyError
  | indexError
  | typeError
  | nameError
  | valueError
  | recursionError
deriving DecidableEq

/-- Python `d[k]` for a string literal key `k`: a `dict` returns the value or
raises `KeyError`; subscripting a list or string with a string raises
`TypeError` (list/string indices must be integers); subscripting an int,
bool or `None` raises `TypeError` (not subscriptable). -/
def pyGetKey (d : Json) (k : String) : Except PyErr Json :=
  match d with
  | .obj fields =>
    match fields.lookup k with
    | some v => .ok v
    | none => .error .keyError
  | _ => .error .typeError

/-- Python `x[0]` for the literal index `0`, as used by the detector on
`data["alerts"][0]`: a list yields its head or raises `IndexError` when
empty; a `dict` raises `KeyError` (JSON-decoded dicts only have string keys,
so the int key `0` is never present); a string yields its first character as
a one-character string or raises `IndexError`; anything else raises
`TypeError`. -/
def pySub0 (d : Json) : Except PyErr Json :=
  match d with
  | .arr [] => .error .indexError
  | .arr (x :: _) => .ok x
  | .obj _ => .error .keyError
  | .str s =>
    match s.data with
    | [] => .error .indexError
    | c :: _ => .ok (.str (String.mk [c]))
  | _ => .error .typeError

/-- Python equality of a JSON value against a string literal (`x == "firing"`):
true exactly for an equal string; values of other types compare unequal. -/
def pyEqStr (j : Json) (s : String) : Bool :=
  match j with
  | .str t => t == s
  | _ => false

/-- Python equality of a JSON value against an int literal (`x == 0`):
ints compare by value; `True`/`False` equal `1`/`0` (bool is a subclass of
int in Python); values of other types compare unequal. -/
def pyEqInt (j : Json) (n : Int) : Bool :=
  match j with
  | .int i => i == n
  | .bool b => (if b then (1 : Int) else 0) == n
  | _ => false

/-- Python truthiness of a JSON value, as used by `if data[...]:`. -/
def pyTruthy (j : Json) : Bool :=
  match j with
  | .null => false
  | .bool b => b
  | .int i => i != 0
  | .str s => !s.isEmpty
  | .arr l => !l.isEmpty
  | .obj f => !f.isEmpty

/-- Whether `needle` is a leading run of `hay`. -/
def listStarts : List Char → List Char → Bool
  | _, [] => true
  | [], _ :: _ => false
  | a :: as', b :: bs' => a == b && listStarts as' bs'

/-- Whether `needle` occurs contiguously anywhere in `hay`. -/
def listHas : List Char → List Char → Bool
  | [], needle => listStarts [] needle
  | a :: rest, needle => listStarts (a :: rest) needle || listHas rest needle

/-- Substring test on strings, for Python `needle in haystack`. -/
def strContains (haystack needle : String) : Bool :=
  listHas haystack.data needle.data

/-- The whitespace set of Python's default `str.strip`. -/
def pyIsSpace (c : Char) : Bool :=
  c == ' ' || c == '\t' || c == '\n' || c == '\r' || c == '\x0b' || c == '\x0c'

/-- Python `s.strip("\n").strip()`: the second `strip` removes all leading
and trailing whitespace, which subsumes the first, so the composition
strips exactly the whitespace from both ends. -/
def pyStrip (s : String) : String :=
  String.mk (((s.data.dropWhile pyIsSpace).reverse.dropWhile pyIsSpace).reverse)

/-- Python membership `k in d` for a string literal `k`: key membership on a
`dict`, element equality on a list, substring test on a string, and
`TypeError` on an int, bool or `None` (argument not iterable). -/
def pyIn (k : String) (d : Json) : Except PyErr Bool :=
  match d with
  | .obj fields => .ok (fields.any (fun kv => kv.1 == k))
  | .arr elems => .ok (elems.any (fun e => pyEqStr e k))
  | .str s => .ok (strContains s k)
  | _ => .error .typeError

/-- Whether a value is a Python `dict`, for `isinstance(data, dict)`. -/
def isDict (j : Json) : Bool :=
  match j with
  | .obj _ => true
  | _ => false

/-- Python iteration `for x in d`: a list yields its elements, a `dict` its
keys (as strings), a string its characters (as one-character strings);
iterating an int, bool or `None` raises `TypeError`. -/
def pyIterList (d : Json) : Except PyErr (List Json) :=
  match d with
  | .arr elems => .ok elems
  | .obj fields => .ok (fields.map (fun kv => .str kv.1))
  | .str s => .ok (s.data.map (fun c => .str (String.mk [c])))
  | _ => .error .typeError

/-- Python `sep.join(parts)`: every part must be a string, otherwise
`TypeError`. -/
def pyJoin (sep : String) : List Json → Except PyErr String
  | [] => .ok ""
  | [.str s] => .ok s
  | .str s :: rest =>
    match pyJoin sep rest with
    | .ok r => .ok (s ++ sep ++ r)
    | .error e => .error e
  | _ => .error .typeError

mutual

/-- Python `repr` of a JSON value, which is what `str` produces on dicts and
lists.  Strings are quoted with single quotes (escape sequences are not
modelled; the payloads in this development contain no quotes or
backslashes), `True`/`False`/`None` print in Python spelling, and
containers recurse with `", "` separators. -/
def pyRepr : Json → String
  | .null => "None"
  | .bool b => if b then "True" else "False"
  | .int i => toString i
  | .str s => "'" ++ s ++ "'"
  | .arr l => "[" ++ pyReprArr l ++ "]"
  | .obj f => "\x7b" ++ pyReprObj f ++ "\x7d"

/-- Comma-separated `repr`s of list elements. -/
def pyReprArr : List Json → String
  | [] => ""
  | [x] => pyRepr x
  | x :: rest => pyRepr x ++ ", " ++ pyReprArr rest

/-- Comma-separated `'key': repr(value)` pairs of dict entries. -/
def pyReprObj : List (String × Json) → String
  | [] => ""
  | [(k, v)] => "'" ++ k ++ "': " ++ pyRepr v
  | (k, v) :: rest => "'" ++ k ++ "': " ++ pyRepr v ++ ", " ++ pyReprObj rest

end

/-- Python `str` of a JSON value, as used by f-string interpolation and by
`str(alert_data)`: a string prints verbatim, everything else as `repr`. -/
def pyStr : Json → String
  | .str s => s
  | j => pyRepr j

/-- The slack-webhook probe `("text" in data) and ("attachments" in data)`
(alertbot.py line 67), with Python short-circuit evaluation of `and`. -/
def slackCheck (d : Json) : Except PyErr Bool :=
  match pyIn "text" d with
  | .error e => .error e
  | .ok false => .ok false
  | .ok true => pyIn "attachments" d

/-- The chained access `data["heartbeat"]["status"]` of the uptime-kuma
probe (alertbot.py line 72). -/
def heartbeatStatus (d : Json) : Except PyErr Json :=
  match pyGetKey d "heartbeat" with
  | .error e => .error e
  | .ok hb => pyGetKey hb "status"

/-- The uptime-kuma probe of `get_alert_type` (alertbot.py lines 71-77):
`data["heartbeat"]["status"] == 0` classifies `uptime-kuma-alert`, `== 1`
classifies `uptime-kuma-resolved`, any other status falls through; a
`KeyError` from the access is swallowed by `except KeyError: pass`, while
any other exception (e.g. `TypeError` from subscripting a non-dict)
propagates. -/
def heartbeatCheck (d : Json) : Except PyErr (Option String) :=
  match heartbeatStatus d with
  | .ok v =>
    if pyEqInt v 0 then .ok (some "uptime-kuma-alert")
    else if pyEqInt v 1 then .ok (some "uptime-kuma-resolved")
    else .ok none
  | .error .keyError => .ok none
  | .error e => .error e

/-- The grafana probe of `get_alert_type` (alertbot.py lines 80-87): if
`data["alerts"][0]["labels"]["grafana_folder"]` is truthy, the top-level
`status` decides firing vs resolved; the whole block is wrapped in
`try: ... except KeyError: pass`, so a missing key (including a missing
top-level `status`) falls through, while `IndexError` (empty `alerts`
list) or `TypeError` propagates. -/
def grafanaCheck (d : Json) : Except PyErr (Option String) :=
  match
    (match pyGetKey d "alerts" with
     | .error e => .error e
     | .ok alerts =>
       match pySub0 alerts with
       | .error e => .error e
       | .ok a0 =>
         match pyGetKey a0 "labels" with
         | .error e => .error e
         | .ok labels =>
           match pyGetKey labels "grafana_folder" with
           | .error e => .error e
           | .ok folder =>
             if pyTruthy folder then
               match pyGetKey d "status" with
               | .error e => .error e
               | .ok st =>
                 .ok (some (if pyEqStr st "firing" then "grafana-alert"
                            else "grafana-resolved"))
             else .ok none : Except PyErr (Option String))
  with
  | .ok r => .ok r
  | .error .keyError => .ok none
  | .error e => .error e

/-- The prometheus probe of `get_alert_type` (alertbot.py lines 90-97),
structured exactly like the grafana probe but keyed on
`data["alerts"][0]["labels"]["job"]`. -/
def promCheck (d : Json) : Except PyErr (Option String) :=
  match
    (match pyGetKey d "alerts" with
     | .error e => .error e
     | .ok alerts =>
       match pySub0 alerts with
       | .error e => .error e
       | .ok a0 =>
         match pyGetKey a0 "labels" with
         | .error e => .error e
         | .ok labels =>
           match pyGetKey labels "job" with
           | .error e => .error e
           | .ok job =>
             if pyTruthy job then
               match pyGetKey d "status" with
               | .error e => .error e
               | .ok st =>
                 .ok (some (if pyEqStr st "firing" then "prometheus-alert"
                            else "prometheus-resolved"))
             else .ok none : Except PyErr (Option String))
  with
  | .ok r => .ok r
  | .error .keyError => .ok none
  | .error e => .error e

/-- `get_alert_type` (alertbot.py lines 60-99): the four signature probes in
source order, first match wins, defaulting to `"not-found"`.  Uncaught
exceptions from the probes propagate. -/
def get_alert_type (d : Json) : Except PyErr String :=
  match slackCheck d with
  | .error e => .error e
  | .ok true => .ok "slack-webhook"
  | .ok false =>
    match heartbeatCheck d with
    | .error e => .error e
    | .ok (some t) => .ok t
    | .ok none =>
      match grafanaCheck d with
      | .error e => .error e
      | .ok (some t) => .ok t
      | .ok none =>
        match promCheck d with
        | .error e => .error e
        | .ok (some t) => .ok t
        | .ok none => .ok "not-found"

/-- Whether a value is Python `None`, for `attach[key] is not None`. -/
def isNull (j : Json) : Bool :=
  match j with
  | .null => true
  | _ => false

mutual

/-- Python `==` between two JSON values: scalars compare by value with the
bool/int cross equality (`True == 1`), containers recurse.  Simplification:
dict equality is modelled structurally (order-sensitive), while Python
compares dicts as key sets; the values compared with `==` in this
development are scalars, where the two notions coincide. -/
def pyEqJson : Json → Json → Bool
  | .null, .null => true
  | .bool a, .bool b => a == b
  | .bool a, .int b => (if a then (1 : Int) else 0) == b
  | .int a, .bool b => a == (if b then (1 : Int) else 0)
  | .int a, .int b => a == b
  | .str a, .str b => a == b
  | .arr a, .arr b => pyEqJsonList a b
  | .obj a, .obj b => pyEqJsonFields a b
  | _, _ => false

/-- Elementwise `pyEqJson` on lists. -/
def pyEqJsonList : List Json → List Json → Bool
  | [], [] => true
  | a :: as', b :: bs' => pyEqJson a b && pyEqJsonList as' bs'
  | _, _ => false

/-- Entrywise `pyEqJson` on dict entries. -/
def pyEqJsonFields : List (String × Json) → List (String × Json) → Bool
  | [], [] => true
  | (k, v) :: as', (k', v') :: bs' => k == k' && pyEqJson v v' && pyEqJsonFields as' bs'
  | _, _ => false

end

/-- `convert_slack_webhook_to_markdown` (alertbot.py lines 22-57).  A
non-dict input returns the literal `["Input data must be a dictionary"]`.
For a dict, markdown parts are collected: the `text` field, then per
attachment a title line (heading, or link when `title_link` is present),
quoted `text`/`image_url` lines, and quoted bullet lines for `fields`;
then per section a heading for a not-yet-seen `activityTitle` and the raw
`activitySubtitle` value.  Parts are kept as values because the source
appends `section['activitySubtitle']` without converting it to a string;
the final `'\n'.join` raises `TypeError` when that value is not a string. -/
def convert_slack_webhook_to_markdown (data : Json) : Except PyErr (List String) := do
  if !(isDict data) then
    return ["Input data must be a dictionary"]
  let mut markdown_parts : List Json := []
  let mut attachment_titles : List Json := []
  if (← pyIn "text" data) then
    markdown_parts := markdown_parts ++ [.str (pyStr (← pyGetKey data "text"))]
  if (← pyIn "attachments" data) then
    for attach in (← pyIterList (← pyGetKey data "attachments")) do
      if (← pyIn "title" attach) then
        let title ← pyGetKey attach "title"
        attachment_titles := attachment_titles ++ [title]
        let title_md ←
          if !(← pyIn "title_link" attach) then
            pure ("## " ++ pyStr title)
          else do
            pure ("[" ++ pyStr title ++ "](" ++ pyStr (← pyGetKey attach "title_link") ++ ")")
        markdown_parts := markdown_parts ++ [.str ("> " ++ title_md)]
      for key in ["text", "image_url"] do
        if (← pyIn key attach) then
          let v ← pyGetKey attach key
          if !(isNull v) then
            let extra := if key == "text" then pyStr v else "![Image](" ++ pyStr v ++ ")"
            markdown_parts := markdown_parts ++ [.str ("> " ++ extra)]
      if (← pyIn "fields" attach) then
        let mut field_parts : List String := []
        for f in (← pyIterList (← pyGetKey attach "fields")) do
          field_parts := field_parts ++
            ["- **" ++ pyStr (← pyGetKey f "title") ++ "** : " ++ pyStr (← pyGetKey f "value")]
        markdown_parts := markdown_parts ++ field_parts.map (fun p => .str ("> " ++ p))
  if (← pyIn "sections" data) then
    markdown_parts := markdown_parts ++ [.str ""]
    for sec in (← pyIterList (← pyGetKey data "sections")) do
      if (← pyIn "activityTitle" sec) then
        let t ← pyGetKey sec "activityTitle"
        if !(attachment_titles.any (pyEqJson t)) then
          markdown_parts := markdown_parts ++ [.str ("## " ++ pyStr t)]
      if (← pyIn "activitySubtitle" sec) then
        markdown_parts := markdown_parts ++ [← pyGetKey sec "activitySubtitle"]
  let joined ← pyJoin "\n" markdown_parts
  return [joined]

/-- `uptime_kuma_alert_to_markdown` (alertbot.py lines 139-150): one message
with monitor URL, error message, start time and comma-joined tag names.
The trailing run of 20 spaces reproduces the indentation baked into the
source's triple-quoted f-string. -/
def uptime_kuma_alert_to_markdown (alert_data : Json) : Except PyErr (List String) := do
  let tags ← pyIterList (← pyGetKey (← pyGetKey alert_data "monitor") "tags")
  let names ← tags.mapM (fun tag => pyGetKey tag "name")
  let tags_readable ← pyJoin ", " names
  let url ← pyGetKey (← pyGetKey alert_data "monitor") "url"
  let msg ← pyGetKey (← pyGetKey alert_data "heartbeat") "msg"
  let time ← pyGetKey (← pyGetKey alert_data "heartbeat") "time"
  return ["**Firing 🔥**: Monitor down: " ++ pyStr url
          ++ "\n\n* **Error:** " ++ pyStr msg
          ++ "\n* **Started at:** " ++ pyStr time
          ++ "\n* **Tags:** " ++ tags_readable
          ++ "\n* **Source:** \"Uptime Kuma\"\n                    "]

/-- `uptime_kuma_resolved_to_markdown` (alertbot.py lines 168-180): one
message with monitor URL, status message, start time, outage duration and
comma-joined tag names.  The trailing run of 4 spaces reproduces the
indentation baked into the source's triple-quoted f-string. -/
def uptime_kuma_resolved_to_markdown (alert_data : Json) : Except PyErr (List String) := do
  let tags ← pyIterList (← pyGetKey (← pyGetKey alert_data "monitor") "tags")
  let names ← tags.mapM (fun tag => pyGetKey tag "name")
  let tags_readable ← pyJoin ", " names
  let url ← pyGetKey (← pyGetKey alert_data "monitor") "url"
  let msg ← pyGetKey (← pyGetKey alert_data "heartbeat") "msg"
  let time ← pyGetKey (← pyGetKey alert_data "heartbeat") "time"
  let duration ← pyGetKey (← pyGetKey alert_data "heartbeat") "duration"
  return ["**Resolved 💚**: " ++ pyStr url
          ++ "\n\n* **Status:** " ++ pyStr msg
          ++ "\n* **Started at:** " ++ pyStr time
          ++ "\n* Duration until resolved " ++ pyStr duration ++ "s"
          ++ "\n* **Tags:** " ++ tags_readable
          ++ "\n* **Source:** \"Uptime Kuma\"\n    "]

/-- Model of the library call `dateutil.parser.isoparse` (not part of this
repository).  Abstracted as: a non-string argument raises `TypeError`; a
string is accepted exactly when it starts with a four-digit year (dateutil
accepts ISO-8601 prefixes from `YYYY` onwards), otherwise `ValueError`.
Only acceptance matters to the embedding: the parsed timestamps are bound
to local variables and never used in the rendered output. -/
def isoparse (j : Json) : Except PyErr Unit :=
  match j with
  | .str s =>
    if s.length ≥ 4 && (s.take 4).all Char.isDigit then .ok () else .error .valueError
  | _ => .error .typeError

/-- The display-name construction of `grafana_alert_to_markdown`
(alertbot.py lines 192-196): `labels.alertname`, suffixed with
`labels.name` if present, else with `labels.rulename` if present.  The
f-string converts the looked-up values with `str`. -/
def grafanaName (alert : Json) : Except PyErr String :=
  match pyGetKey alert "labels" with
  | .error e => .error e
  | .ok labels =>
    match pyGetKey labels "alertname" with
    | .error e => .error e
    | .ok an =>
      match pyIn "name" labels with
      | .error e => .error e
      | .ok true =>
        match pyGetKey labels "name" with
        | .error e => .error e
        | .ok v => .ok (pyStr an ++ " - " ++ pyStr v)
      | .ok false =>
        match pyIn "rulename" labels with
        | .error e => .error e
        | .ok true =>
          match pyGetKey labels "rulename" with
          | .error e => .error e
          | .ok v => .ok (pyStr an ++ " - " ++ pyStr v)
        | .ok false => .ok (pyStr an)

/-- One iteration of the `grafana_alert_to_markdown` loop body (alertbot.py
lines 192-206), without the `message` variable from earlier iterations:
`some msg` when the alert's status is `"firing"` (which reads
`silenceURL`) or `"resolved"` (which parses `endsAt` and `startsAt` and
discards them), `none` when the status is anything else, in which case the
source leaves `message` untouched. -/
def grafanaOne (alert : Json) : Except PyErr (Option String) :=
  match grafanaName alert with
  | .error e => .error e
  | .ok name =>
    match pyGetKey alert "status" with
    | .error e => .error e
    | .ok st =>
      if pyEqStr st "firing" then
        match pyGetKey alert "silenceURL" with
        | .error e => .error e
        | .ok url =>
          .ok (some ("**Firing 🔥**: " ++ name ++ " ([silence](" ++ pyStr url ++ "))"))
      else if pyEqStr st "resolved" then
        match pyGetKey alert "endsAt" with
        | .error e => .error e
        | .ok ea =>
          match isoparse ea with
          | .error e => .error e
          | .ok _ =>
            match pyGetKey alert "startsAt" with
            | .error e => .error e
            | .ok sa =>
              match isoparse sa with
              | .error e => .error e
              | .ok _ => .ok (some ("**Resolved 🥳**: " ++ name))
      else .ok none

/-- `messages.append(message)` at the end of the loop body (alertbot.py line
207): when the current alert bound no message, Python appends the binding
left over from the previous iteration, and raises `NameError` if `message`
was never assigned at all. -/
def grafanaStep (prev : Option String) (alert : Json) : Except PyErr String :=
  match grafanaOne alert with
  | .error e => .error e
  | .ok (some m) => .ok m
  | .ok none =>
    match prev with
    | some m => .ok m
    | none => .error .nameError

/-- The `for alert in alert_data["alerts"]` loop of
`grafana_alert_to_markdown`, threading the `message` binding. -/
def grafanaLoop : Option String → List Json → Except PyErr (List String)
  | _, [] => .ok []
  | prev, a :: rest =>
    match grafanaStep prev a with
    | .error e => .error e
    | .ok m =>
      match grafanaLoop (some m) rest with
      | .error e => .error e
      | .ok ms => .ok (m :: ms)

/-- `grafana_alert_to_markdown` (alertbot.py lines 183-208). -/
def grafana_alert_to_markdown (alert_data : Json) : Except PyErr (List String) :=
  match pyGetKey alert_data "alerts" with
  | .error e => .error e
  | .ok alerts =>
    match pyIterList alerts with
    | .error e => .error e
    | .ok l => grafanaLoop none l

/-- Python `hasattr(x, 'description')` for a value decoded by `json.loads`:
such values are plain dicts, lists, strings, numbers, bools or `None`, and
none of these types carries an attribute named `description` (dict keys
are not attributes), so the probe is `False` for every payload value.
This makes the `description` branch of the title selection in
`prometheus_alert_to_markdown` (alertbot.py line 221) dead code. -/
def hasattrDescription (_ : Json) : Bool := false

/-- Python `str.capitalize`: first character uppercased, the rest
lowercased. -/
def pyCapitalize (s : String) : String :=
  match s.data with
  | [] => ""
  | c :: r => String.mk (c.toUpper :: r.map Char.toLower)

/-- The chained access `alert["labels"][label_name]` (alertbot.py line
226). -/
def pyAlertLabel (alert : Json) (label : String) : Except PyErr Json :=
  match pyGetKey alert "labels" with
  | .error e => .error e
  | .ok labs => pyGetKey labs label

/-- One bullet line of the prometheus renderer (alertbot.py lines 224-228):
the label's line when the lookup succeeds, nothing when it raises — the
source uses a bare `except: pass`, which swallows every exception. -/
def promLabelLine (alert : Json) (label : String) : String :=
  match pyAlertLabel alert label with
  | .ok v => "\n* **" ++ pyCapitalize label ++ "**: " ++ pyStr v
  | .error _ => ""

/-- Concatenation of a list of strings in order. -/
def concatAll : List String → String
  | [] => ""
  | s :: rest => s ++ concatAll rest

/-- The fixed label list of the prometheus renderer (alertbot.py line
219). -/
def known_labels : List String := ["alertname", "instance", "job"]

/-- The bullet-line block of one prometheus alert: the `for label_name in
known_labels` loop (alertbot.py lines 224-228). -/
def promBullets (alert : Json) : String :=
  concatAll (known_labels.map (promLabelLine alert))

/-- The header line of one prometheus alert (alertbot.py line 223). -/
def promHeader (st title : Json) : String :=
  "**" ++ pyStr st ++ "** " ++ (if pyEqStr st "resolved" then "💚" else "🔥")
    ++ ": " ++ pyStr title

/-- One iteration of the `prometheus_alert_to_markdown` loop (alertbot.py
lines 220-229): title from `annotations.description` if
`hasattr(annotations, 'description')` — which is never the case for a
decoded JSON value, see `hasattrDescription` — else from
`annotations.summary`; then the header line and the label bullets. -/
def promOne (alert : Json) : Except PyErr String :=
  match pyGetKey alert "annotations" with
  | .error e => .error e
  | .ok anns =>
    match
      (if hasattrDescription anns then pyGetKey anns "description"
       else pyGetKey anns "summary")
    with
    | .error e => .error e
    | .ok title =>
      match pyGetKey alert "status" with
      | .error e => .error e
      | .ok st => .ok (promHeader st title ++ promBullets alert)

/-- The `for alert in alert_data["alerts"]` loop of
`prometheus_alert_to_markdown`: one appended message per alert. -/
def promLoop : List Json → Except PyErr (List String)
  | [] => .ok []
  | a :: rest =>
    match promOne a with
    | .error e => .error e
    | .ok m =>
      match promLoop rest with
      | .error e => .error e
      | .ok ms => .ok (m :: ms)

/-- `prometheus_alert_to_markdown` (alertbot.py lines 211-230). -/
def prometheus_alert_to_markdown (alert_data : Json) : Except PyErr (List String) :=
  match pyGetKey alert_data "alerts" with
  | .error e => .error e
  | .ok alerts =>
    match pyIterList alerts with
    | .error e => .error e
    | .ok l => promLoop l

/-- Whether a value passes the scalar test of `dict_to_markdown`
(alertbot.py line 161): `isinstance(x, str) or isinstance(x, int)` — note
that Python bools are instances of `int`. -/
def isScalarPy (j : Json) : Bool :=
  match j with
  | .str _ => true
  | .int _ => true
  | .bool _ => true
  | _ => false

/-- Python list subscripting `l[e]` as exercised by `dict_to_markdown` on a
list input, returning the position rather than the element (the element is
`l.get` of the result): an int (or bool, which indexes as 0/1) is
normalised by adding `len(l)` when negative and must then be in range,
else `IndexError`; any other subscript type raises `TypeError`. -/
def pyIndexFin (l : List Json) (e : Json) : Except PyErr (Fin l.length) :=
  match e with
  | .int i =>
    if h : 0 ≤ (if i < 0 then i + l.length else i)
        ∧ (if i < 0 then i + l.length else i).toNat < l.length then
      .ok ⟨(if i < 0 then i + l.length else i).toNat, h.2⟩
    else .error .indexError
  | .bool b =>
    if h : (if b then 1 else 0) < l.length then .ok ⟨if b then 1 else 0, h⟩
    else .error .indexError
  | _ => .error .typeError

mutual

/-- `dict_to_markdown` (alertbot.py lines 153-165).  The source iterates its
argument: a dict iterates keys (handled by `mdFields`), a list iterates
elements and subscripts the original list with each element (handled by
`mdElems`); iterating an int, bool or `None` raises `TypeError` at the
`for` statement.  A non-empty string iterates its characters `c`, where
`s[c]` raises `TypeError` (string indices must be integers), which is
caught and answered by the recursive call `dict_to_markdown(c)` on the
one-character string `c` — a call that recurses on itself forever, so
CPython aborts it with `RecursionError`; an empty string yields `""`. -/
def dict_to_markdown : Json → Except PyErr String
  | .obj fields => mdFields fields
  | .arr elems => mdElems elems 0
  | .str s => if s.isEmpty then .ok "" else .error .recursionError
  | _ => .error .typeError
termination_by j => (sizeOf j, 0)
decreasing_by
all_goals simp_wf
all_goals exact Prod.Lex.left _ _ (by simp)

/-- The `for key_or_dict in alert_data` loop of `dict_to_markdown` over a
dict: subscripting with an iterated key never raises, so only the
scalar/recurse branch of the body runs; a scalar value yields a bullet
line, any other value is rendered recursively with a two-space indent
prepended to the whole recursive result. -/
def mdFields : List (String × Json) → Except PyErr String
  | [] => .ok ""
  | (k, v) :: rest =>
    if isScalarPy v then
      match mdFields rest with
      | .error e => .error e
      | .ok restMd => .ok ("* " ++ k ++ ": " ++ pyStr v ++ "\n" ++ restMd)
    else
      match dict_to_markdown v with
      | .error e => .error e
      | .ok sub =>
        match mdFields rest with
        | .error e => .error e
        | .ok restMd => .ok ("  " ++ sub ++ restMd)
termination_by l => (sizeOf l, 0)
decreasing_by
all_goals simp_wf
all_goals exact Prod.Lex.left _ _ (by first | simp | omega)

/-- The `for key_or_dict in alert_data` loop of `dict_to_markdown` over a
list, with `n` the position of the current element in the original list
`orig` (the source subscripts `alert_data`, the whole list, with the
element): a `TypeError` from the subscript recurses on the element itself,
an `IndexError` propagates, a successful subscript yields a bullet line
for a scalar result and recurses on the result otherwise. -/
def mdElems (orig : List Json) (n : Nat) : Except PyErr String :=
  if hn : n < orig.length then
    match pyIndexFin orig (orig.get ⟨n, hn⟩) with
    | .error .typeError =>
      match dict_to_markdown (orig.get ⟨n, hn⟩) with
      | .error e => .error e
      | .ok sub =>
        match mdElems orig (n + 1) with
        | .error e => .error e
        | .ok restMd => .ok ("  " ++ sub ++ restMd)
    | .error e => .error e
    | .ok idx =>
      if isScalarPy (orig.get idx) then
        match mdElems orig (n + 1) with
        | .error e => .error e
        | .ok restMd =>
          .ok ("* " ++ pyStr (orig.get ⟨n, hn⟩) ++ ": " ++ pyStr (orig.get idx)
               ++ "\n" ++ restMd)
      else
        match dict_to_markdown (orig.get idx) with
        | .error e => .error e
        | .ok sub =>
          match mdElems orig (n + 1) with
          | .error e => .error e
          | .ok restMd => .ok ("  " ++ sub ++ restMd)
  else .ok ""
termination_by (sizeOf orig, orig.length - n)
decreasing_by
all_goals simp_wf
all_goals
  first
    | exact Prod.Lex.right _ (by omega)
    | exact Prod.Lex.left _ _ (List.sizeOf_lt_of_mem (List.get_mem _ _ _))

end

/-- The renderer dispatch of `get_alert_messages` (alertbot.py lines
119-132): the chain of `alert_type` comparisons, one renderer per known
classification.  The source writes the slack comparison as a separate
`if`, which is equivalent because the classification strings are mutually
exclusive; an unknown type would leave `messages` unbound, raising
`NameError` at the final `return` — unreachable from `get_alert_type`. -/
def dispatchRenderer (alert_type : String) (d : Json) : Except PyErr (List String) :=
  if alert_type == "slack-webhook" then convert_slack_webhook_to_markdown d
  else if alert_type == "grafana-alert" then grafana_alert_to_markdown d
  else if alert_type == "grafana-resolved" then grafana_alert_to_markdown d
  else if alert_type == "prometheus-alert" then prometheus_alert_to_markdown d
  else if alert_type == "prometheus-resolved" then prometheus_alert_to_markdown d
  else if alert_type == "uptime-kuma-alert" then uptime_kuma_alert_to_markdown d
  else if alert_type == "uptime-kuma-resolved" then uptime_kuma_resolved_to_markdown d
  else .error .nameError

/-- `get_alert_messages` (alertbot.py lines 102-136).  The classification
runs first, so its exceptions propagate even in raw mode.  Raw mode wraps
`str(alert_data).strip("\n").strip()` in a code block — the two `strip`s
together remove exactly the leading/trailing whitespace, modelled by
`String.trim`.  A `not-found` classification wraps the fallback dump.
Otherwise the dispatch runs under `try: ... except KeyError as e:` whose
handler builds a diagnostic message whose f-string calls
`e.with_traceback()` — `with_traceback` requires its traceback argument,
so the handler itself raises `TypeError` and the diagnostic message is
never returned; every other renderer exception propagates unhandled. -/
def get_alert_messages (alert_data : Json) (raw_mode : Bool) : Except PyErr (List String) :=
  match get_alert_type alert_data with
  | .error e => .error e
  | .ok alert_type =>
    if raw_mode then
      .ok ["**Data received**\n```\n" ++ pyStrip (pyStr alert_data) ++ "\n```"]
    else if alert_type == "not-found" then
      match dict_to_markdown alert_data with
      | .error e => .error e
      | .ok md => .ok ["**Data received**\n " ++ md]
    else
      match dispatchRenderer alert_type alert_data with
      | .ok msgs => .ok msgs
      | .error .keyError => .error .typeError
      | .error e => .error e

/-- Whether the label lookup `alert["labels"][label]` of the prometheus
renderer succeeds, i.e. the label is present. -/
def labelPresent (alert : Json) (label : String) : Bool :=
  match pyAlertLabel alert label with
  | .ok _ => true
  | .error _ => false

/-- JSON trees on which the fallback dump provably succeeds: scalars
(strings, ints, bools) and dicts all of whose values are again such
trees. -/
inductive SafeDump : Json → Prop where
  | str (s : String) : SafeDump (.str s)
  | int (i : Int) : SafeDump (.int i)
  | bool (b : Bool) : SafeDump (.bool b)
  | obj (fields : List (String × Json)) (h : ∀ p ∈ fields, SafeDump p.2) :
      SafeDump (.obj fields)

/-- A grafana payload whose single firing alert lacks `silenceURL`. -/
def grafanaMissingSilencePayload : Json :=
  .obj [("alerts", .arr [.obj [("labels", .obj [("grafana_folder", .str "f"),
          ("alertname", .str "a")]), ("status", .str "firing")]]),
        ("status", .str "firing")]

/-- A payload whose `alerts` key holds an empty list. -/
def emptyAlertsPayload : Json :=
  .obj [("alerts", .arr [])]

/-- A prometheus payload whose alert carries both `annotations.description`
and `annotations.summary`. -/
def promDescriptionPayload : Json :=
  .obj [("status", .str "firing"),
        ("alerts", .arr [.obj [("status", .str "firing"),
          ("labels", .obj [("job", .str "j")]),
          ("annotations", .obj [("description", .str "D"), ("summary", .str "S")])]])]

/-- A prometheus payload whose alert carries `annotations.description` but
no `annotations.summary`. -/
def promDescriptionOnlyPayload : Json :=
  .obj [("status", .str "firing"),
        ("alerts", .arr [.obj [("status", .str "firing"),
          ("labels", .obj [("job", .str "j")]),
          ("annotations", .obj [("description", .str "D")])]])]

/-- A one-entry dict payload, for exercising raw mode. -/
def rawObjPayload : Json :=
  .obj [("a", .str "b")]

/-- A grafana payload whose single alert has status `"pending"`. -/
def grafanaPendingPayload : Json :=
  .obj [("alerts", .arr [.obj [("labels", .obj [("grafana_folder", .str "f"),
          ("alertname", .str "a")]), ("status", .str "pending")]]),
        ("status", .str "firing")]

/-- A well-formed firing grafana alert. -/
def grafanaFiringAlert : Json :=
  .obj [("labels", .obj [("grafana_folder", .str "f"), ("alertname", .str "a")]),
        ("status", .str "firing"), ("silenceURL", .str "http://s")]

/-- A grafana payload with the single well-formed firing alert. -/
def grafanaFiringPayload : Json :=
  .obj [("alerts", .arr [grafanaFiringAlert]), ("status", .str "firing")]

/-- A prometheus alert carrying all three known labels. -/
def promAlertFull : Json :=
  .obj [("status", .str "firing"),
        ("labels", .obj [("alertname", .str "an"), ("instance", .str "i1"),
          ("job", .str "j")]),
        ("annotations", .obj [("summary", .str "S1")])]

/-- A prometheus alert lacking the `instance` label. -/
def promAlertNoInstance : Json :=
  .obj [("status", .str "resolved"),
        ("labels", .obj [("alertname", .str "an2"), ("job", .str "j2")]),
        ("annotations", .obj [("summary", .str "S2")])]

/-- A prometheus payload with one full alert and one alert lacking
`instance`. -/
def promLabelsPayload : Json :=
  .obj [("status", .str "firing"), ("alerts", .arr [promAlertFull, promAlertNoInstance])]

/-- The worked uptime-kuma example payload of the specification. -/
def kumaPayload : Json :=
  .obj [("heartbeat", .obj [("status", .int 0), ("msg", .str "down"),
          ("time", .str "t0")]),
        ("monitor", .obj [("url", .str "http://x"),
          ("tags", .arr [.obj [("name", .str "prod")]])])]

/-- A payload whose heartbeat status is neither 0 nor 1. -/
def heartbeatOtherPayload : Json :=
  .obj [("heartbeat", .obj [("status", .int 2)])]

/-! ## Helper lemmas -/

/-- The uptime-kuma probe only ever classifies the two uptime-kuma types. -/
theorem heartbeatCheck_some {d : Json} {t : String}
    (h : heartbeatCheck d = .ok (some t)) :
    t = "uptime-kuma-alert" ∨ t = "uptime-kuma-resolved" := by
  unfold heartbeatCheck at h
  split at h
  · split_ifs at h <;> simp_all
  · simp_all
  · simp_all

/-- The grafana probe only ever classifies the two grafana types. -/
theorem grafanaCheck_some {d : Json} {t : String}
    (h : grafanaCheck d = .ok (some t)) :
    t = "grafana-alert" ∨ t = "grafana-resolved" := by
  unfold grafanaCheck at h
  split at h
  · rename_i r heq
    injection h with h'
    subst h'
    cases h0 : pyGetKey d "alerts" <;> rw [h0] at heq <;> simp at heq
    rename_i alerts
    cases h1 : pySub0 alerts <;> rw [h1] at heq <;> simp at heq
    rename_i a0
    cases h2 : pyGetKey a0 "labels" <;> rw [h2] at heq <;> simp at heq
    rename_i labels
    cases h3 : pyGetKey labels "grafana_folder" <;> rw [h3] at heq <;> simp at heq
    rename_i folder
    split_ifs at heq with h4
    · cases h5 : pyGetKey d "status" <;> rw [h5] at heq <;> simp at heq
      split_ifs at heq <;> simp_all
    · simp at heq
  · simp_all
  · simp_all

/-- The prometheus probe only ever classifies the two prometheus types. -/
theorem promCheck_some {d : Json} {t : String}
    (h : promCheck d = .ok (some t)) :
    t = "prometheus-alert" ∨ t = "prometheus-resolved" := by
  unfold promCheck at h
  split at h
  · rename_i r heq
    injection h with h'
    subst h'
    cases h0 : pyGetKey d "alerts" <;> rw [h0] at heq <;> simp at heq
    rename_i alerts
    cases h1 : pySub0 alerts <;> rw [h1] at heq <;> simp at heq
    rename_i a0
    cases h2 : pyGetKey a0 "labels" <;> rw [h2] at heq <;> simp at heq
    rename_i labels
    cases h3 : pyGetKey labels "job" <;> rw [h3] at heq <;> simp at heq
    rename_i job
    split_ifs at heq with h4
    · cases h5 : pyGetKey d "status" <;> rw [h5] at heq <;> simp at heq
      split_ifs at heq <;> simp_all
    · simp at heq
  · simp_all
  · simp_all

/-- When every alert renders to a message on its own, the grafana loop
succeeds with one message per alert, in order, independent of the
incoming `message` binding. -/
theorem grafanaLoop_map (alerts : List Json) (prev : Option String)
    (h : ∀ a ∈ alerts, ∃ m, grafanaOne a = .ok (some m)) :
    ∃ msgs, grafanaLoop prev alerts = .ok msgs ∧ msgs.length = alerts.length ∧
      ∀ (i : Nat) (h1 : i < alerts.length) (h2 : i < msgs.length),
        grafanaOne (alerts.get ⟨i, h1⟩) = .ok (some (msgs.get ⟨i, h2⟩)) := by
  induction alerts generalizing prev with
  | nil => exact ⟨[], rfl, rfl, fun i h1 => absurd h1 (by simp)⟩
  | cons a rest ih =>
    obtain ⟨m, hm⟩ := h a (by simp)
    obtain ⟨ms, hms, hlen, hidx⟩ := ih (some m) (fun x hx => h x (by simp [hx]))
    refine ⟨m :: ms, ?_, by simp [hlen], ?_⟩
    · simp [grafanaLoop, grafanaStep, hm, hms]
    · intro i h1 h2
      cases i with
      | zero => simpa using hm
      | succ n => exact hidx n (by simpa using h1) (by simpa using h2)

/-- When every alert renders, the prometheus loop succeeds with one message
per alert, in order. -/
theorem promLoop_map (alerts : List Json)
    (h : ∀ a ∈ alerts, ∃ m, promOne a = .ok m) :
    ∃ msgs, promLoop alerts = .ok msgs ∧ msgs.length = alerts.length ∧
      ∀ (i : Nat) (h1 : i < alerts.length) (h2 : i < msgs.length),
        promOne (alerts.get ⟨i, h1⟩) = .ok (msgs.get ⟨i, h2⟩) := by
  induction alerts with
  | nil => exact ⟨[], rfl, rfl, fun i h1 => absurd h1 (by simp)⟩
  | cons a rest ih =>
    obtain ⟨m, hm⟩ := h a (by simp)
    obtain ⟨ms, hms, hlen, hidx⟩ := ih (fun x hx => h x (by simp [hx]))
    refine ⟨m :: ms, ?_, by simp [hlen], ?_⟩
    · simp [promLoop, hm, hms]
    · intro i h1 h2
      cases i with
      | zero => simpa using hm
      | succ n => exact hidx n (by simpa using h1) (by simpa using h2)

/-- A prometheus alert with reachable `annotations.summary` and `status`
renders without raising, to the header followed by the label bullets;
the label lookups themselves can never fail the alert. -/
theorem promOne_ok (alert anns title st : Json)
    (h1 : pyGetKey alert "annotations" = .ok anns)
    (h2 : pyGetKey anns "summary" = .ok title)
    (h3 : pyGetKey alert "status" = .ok st) :
    promOne alert = .ok (promHeader st title ++ promBullets alert) := by
  simp [promOne, hasattrDescription, h1, h2, h3]

/-- Concatenating a list of strings where a predicate's failures map to `""`
equals concatenating over the filtered list. -/
theorem concatAll_filter (f : String → String) (p : String → Bool)
    (ls : List String) (h : ∀ x ∈ ls, p x = false → f x = "") :
    concatAll (ls.map f) = concatAll ((ls.filter p).map f) := by
  induction ls with
  | nil => rfl
  | cons a rest ih =>
    have ih' := ih (fun x hx => h x (by simp [hx]))
    by_cases hp : p a
    · simp [List.filter_cons, hp, concatAll, ih']
    · have ha : f a = "" := h a (by simp) (by simpa using hp)
      simp [List.filter_cons, hp, concatAll, ha, ih']

/-- The dict walk of the fallback dump succeeds when every value is a
scalar or itself dumps successfully. -/
theorem mdFields_ok_of_each (fields : List (String × Json))
    (h : ∀ p ∈ fields, isScalarPy p.2 = true ∨ ∃ s, dict_to_markdown p.2 = .ok s) :
    ∃ s, mdFields fields = .ok s := by
  induction fields with
  | nil => exact ⟨"", by simp [mdFields]⟩
  | cons p rest ih =>
    obtain ⟨k, v⟩ := p
    obtain ⟨rs, hrs⟩ := ih (fun q hq => h q (by simp [hq]))
    by_cases hsc : isScalarPy v = true
    · exact ⟨"* " ++ k ++ ": " ++ pyStr v ++ "\n" ++ rs, by simp [mdFields, hsc, hrs]⟩
    · rcases h (k, v) (by simp) with hsc2 | ⟨vs, hvs⟩
      · exact absurd hsc2 hsc
      · exact ⟨"  " ++ vs ++ rs, by simp [mdFields, hsc, hvs, hrs]⟩

/-- On the `SafeDump` fragment the fallback dump succeeds (scalars are
handled by their enclosing dict's bullet branch). -/
theorem dict_to_markdown_safe (j : Json) (h : SafeDump j) :
    isScalarPy j = true ∨ ∃ s, dict_to_markdown j = .ok s := by
  induction h with
  | str s => left; rfl
  | int i => left; rfl
  | bool b => left; rfl
  | obj fields hf ih =>
    right
    obtain ⟨s, hs⟩ := mdFields_ok_of_each fields ih
    exact ⟨s, by simp [dict_to_markdown, hs]⟩

/-! ## Claim theorems -/

/-- C1: The claim states that for a payload of a known classification whose
renderer raises a structural error (e.g. a `grafana-alert` payload whose
firing alert lacks `silenceURL`), `get_alert_messages` catches the error
and returns exactly one diagnostic message, never propagating the error.
The code does not do this: the `except KeyError` handler's f-string calls
`e.with_traceback()` without the mandatory traceback argument, so the
handler itself raises `TypeError` — on the cited payload
`get_alert_messages` propagates an error and returns no message at all,
as this evaluation shows. -/
theorem C1_handler_raises_typeerror :
    get_alert_type grafanaMissingSilencePayload = .ok "grafana-alert" ∧
    get_alert_messages grafanaMissingSilencePayload false = .error .typeError :=
  ⟨rfl, rfl⟩

/-- C2 counterexample: the claim says `get_alert_type` terminates without
raising on every payload, "in particular … an empty `alerts` array".  On
`{"alerts": []}` the grafana probe evaluates `data["alerts"][0]`, which
raises `IndexError` — not caught by `except KeyError` — so the detector
raises instead of returning `not-found`. -/
theorem C2_counterexample :
    get_alert_type emptyAlertsPayload = .error .indexError := rfl

/-- C2 (amended): whenever `get_alert_type` does return normally, the value
belongs to the closed eight-value enumeration, with `not-found` as the
fall-through; the original claim's "never fails" clause is dropped since
probes can raise `IndexError`/`TypeError`. -/
theorem C2_amended (d : Json) (s : String) (h : get_alert_type d = .ok s) :
    s = "slack-webhook" ∨ s = "uptime-kuma-alert" ∨ s = "uptime-kuma-resolved" ∨
    s = "grafana-alert" ∨ s = "grafana-resolved" ∨ s = "prometheus-alert" ∨
    s = "prometheus-resolved" ∨ s = "not-found" := by
  unfold get_alert_type at h
  split at h
  · simp_all
  · simp_all
  · split at h
    · simp_all
    · rename_i t heq
      injection h with h'
      subst h'
      rcases heartbeatCheck_some heq with rfl | rfl <;> simp
    · split at h
      · simp_all
      · rename_i t heq
        injection h with h'
        subst h'
        rcases grafanaCheck_some heq with rfl | rfl <;> simp
      · split at h
        · simp_all
        · rename_i t heq
          injection h with h'
          subst h'
          rcases promCheck_some heq with rfl | rfl <;> simp
        · injection h with h'
          subst h'
          simp

/-- C2 witness: the empty dict classifies as `not-found`, which belongs to
the enumeration. -/
theorem C2_amended_witness :
    get_alert_type (Json.obj []) = .ok "not-found" ∧
    ("not-found" = "slack-webhook" ∨ "not-found" = "uptime-kuma-alert" ∨
     "not-found" = "uptime-kuma-resolved" ∨ "not-found" = "grafana-alert" ∨
     "not-found" = "grafana-resolved" ∨ "not-found" = "prometheus-alert" ∨
     "not-found" = "prometheus-resolved" ∨ "not-found" = "not-found") :=
  ⟨rfl, C2_amended (Json.obj []) "not-found" rfl⟩

/-- C3: The claim says the prometheus renderer selects
`annotations.description` when present and falls back to
`annotations.summary` only otherwise.  The code probes
`hasattr(alert['annotations'], 'description')`, which is always `False`
on a decoded JSON dict (keys are not attributes), so `summary` is always
selected: with both keys present the rendered title is `S` (the summary),
not `D` (the description), and with only `description` present the
renderer raises `KeyError` on the missing `summary`. -/
theorem C3_description_never_selected :
    get_alert_type promDescriptionPayload = .ok "prometheus-alert" ∧
    prometheus_alert_to_markdown promDescriptionPayload =
      .ok ["**firing** 🔥: S\n* **Job**: j"] ∧
    prometheus_alert_to_markdown promDescriptionOnlyPayload = .error .keyError :=
  ⟨rfl, rfl, rfl⟩

/-- C4 counterexample: the claim says raw mode returns one code-block
message for every payload, including shapes that confuse the detector.
But `get_alert_messages` runs `get_alert_type` before checking
`raw_mode`, so on `{"alerts": []}` raw mode propagates the detector's
`IndexError` instead of returning a message. -/
theorem C4_counterexample :
    get_alert_messages emptyAlertsPayload true = .error .indexError := rfl

/-- C4 (amended): for every payload on which the detector returns normally,
raw mode yields exactly one message wrapping the payload's `str`
representation (whitespace-stripped) in a code block, independent of the
classification. -/
theorem C4_amended (d : Json) (t : String) (h : get_alert_type d = .ok t) :
    get_alert_messages d true =
      .ok ["**Data received**\n```\n" ++ pyStrip (pyStr d) ++ "\n```"] := by
  unfold get_alert_messages
  rw [h]
  simp

/-- C4 witness: raw mode on a concrete one-entry dict. -/
theorem C4_amended_witness :
    get_alert_messages rawObjPayload true =
      .ok ["**Data received**\n```\n" ++ pyStrip (pyStr rawObjPayload) ++ "\n```"] :=
  C4_amended rawObjPayload "not-found" rfl

/-- C5 counterexample: the claim says `dict_to_markdown` terminates and
returns a string on every JSON value.  On the integer `5` the `for`
statement raises `TypeError` (int is not iterable); non-empty strings
additionally drive the function into unbounded self-recursion. -/
theorem C5_counterexample : dict_to_markdown (Json.int 5) = .error .typeError := by
  simp [dict_to_markdown]

/-- C5 (amended): on JSON objects whose values are strings, ints, bools or
recursively such objects, `dict_to_markdown` terminates and returns a
string without raising; outside this fragment it can raise (`TypeError`
on non-iterables, `IndexError` on out-of-range int list elements) or
recurse forever (non-empty strings). -/
theorem C5_amended (fields : List (String × Json)) (h : ∀ p ∈ fields, SafeDump p.2) :
    ∃ s, dict_to_markdown (.obj fields) = .ok s := by
  obtain ⟨s, hs⟩ :=
    mdFields_ok_of_each fields (fun p hp => dict_to_markdown_safe p.2 (h p hp))
  exact ⟨s, by simp [dict_to_markdown, hs]⟩

/-- C5 witness: a concrete nested safe object dumps successfully. -/
theorem C5_amended_witness :
    ∃ s, dict_to_markdown (Json.obj [("a", .str "x"), ("b", .obj [("c", .int 3)])]) = .ok s :=
  C5_amended _ (by
    intro p hp
    simp at hp
    rcases hp with rfl | rfl
    · exact SafeDump.str "x"
    · exact SafeDump.obj _ (by
        intro q hq
        simp at hq
        subst hq
        exact SafeDump.int 3))

/-- C6 counterexample: the claim says a Grafana-classified payload with N
alerts always yields exactly N messages, the i-th rendering the i-th
alert.  A payload whose single alert has status `"pending"` is classified
`grafana-alert` (the detector reads the top-level status, the renderer the
alert's own), but the loop body binds `message` in neither branch, so
`messages.append(message)` raises `NameError`: zero messages for N = 1. -/
theorem C6_counterexample :
    get_alert_type grafanaPendingPayload = .ok "grafana-alert" ∧
    grafana_alert_to_markdown grafanaPendingPayload = .error .nameError :=
  ⟨rfl, rfl⟩

/-- C6 (amended): when every alert of the `alerts` array renders on its own
— for Grafana, each alert's status is `"firing"` or `"resolved"` with that
branch's fields readable; for Prometheus, `annotations`/`status` are
readable — the renderer returns exactly N messages, the i-th rendered from
the i-th alert in input order.  A Grafana alert with any other status
instead repeats the previous alert's message, or raises `NameError` when
it is first. -/
theorem C6_amended :
    (∀ (d : Json) (alerts : List Json), pyGetKey d "alerts" = .ok (.arr alerts) →
      (∀ a ∈ alerts, ∃ m, grafanaOne a = .ok (some m)) →
      ∃ msgs, grafana_alert_to_markdown d = .ok msgs ∧ msgs.length = alerts.length ∧
        ∀ (i : Nat) (h1 : i < alerts.length) (h2 : i < msgs.length),
          grafanaOne (alerts.get ⟨i, h1⟩) = .ok (some (msgs.get ⟨i, h2⟩))) ∧
    (∀ (d : Json) (alerts : List Json), pyGetKey d "alerts" = .ok (.arr alerts) →
      (∀ a ∈ alerts, ∃ m, promOne a = .ok m) →
      ∃ msgs, prometheus_alert_to_markdown d = .ok msgs ∧ msgs.length = alerts.length ∧
        ∀ (i : Nat) (h1 : i < alerts.length) (h2 : i < msgs.length),
          promOne (alerts.get ⟨i, h1⟩) = .ok (msgs.get ⟨i, h2⟩)) := by
  constructor
  · intro d alerts hk hwf
    obtain ⟨msgs, hm, hlen, hidx⟩ := grafanaLoop_map alerts none hwf
    refine ⟨msgs, ?_, hlen, hidx⟩
    unfold grafana_alert_to_markdown
    rw [hk]
    simpa [pyIterList] using hm
  · intro d alerts hk hwf
    obtain ⟨msgs, hm, hlen, hidx⟩ := promLoop_map alerts hwf
    refine ⟨msgs, ?_, hlen, hidx⟩
    unfold prometheus_alert_to_markdown
    rw [hk]
    simpa [pyIterList] using hm

/-- C6 witness: both halves instantiated, on a one-alert firing Grafana
payload and a two-alert Prometheus payload. -/
theorem C6_amended_witness :
    (∃ msgs, grafana_alert_to_markdown grafanaFiringPayload = .ok msgs ∧
      msgs.length = [grafanaFiringAlert].length ∧
      ∀ (i : Nat) (h1 : i < [grafanaFiringAlert].length) (h2 : i < msgs.length),
        grafanaOne ([grafanaFiringAlert].get ⟨i, h1⟩) = .ok (some (msgs.get ⟨i, h2⟩))) ∧
    (∃ msgs, prometheus_alert_to_markdown promLabelsPayload = .ok msgs ∧
      msgs.length = [promAlertFull, promAlertNoInstance].length ∧
      ∀ (i : Nat) (h1 : i < [promAlertFull, promAlertNoInstance].length)
        (h2 : i < msgs.length),
        promOne ([promAlertFull, promAlertNoInstance].get ⟨i, h1⟩) =
          .ok (msgs.get ⟨i, h2⟩)) :=
  ⟨C6_amended.1 grafanaFiringPayload [grafanaFiringAlert] rfl (by
      intro a ha
      simp at ha
      subst ha
      exact ⟨_, rfl⟩),
   C6_amended.2 promLabelsPayload [promAlertFull, promAlertNoInstance] rfl (by
      intro a ha
      simp at ha
      rcases ha with rfl | rfl
      · exact ⟨_, rfl⟩
      · exact ⟨_, rfl⟩)⟩

/-- C7: For a `prometheus-alert` payload whose alerts have readable
`annotations.summary` and `status` but arbitrary (possibly missing)
labels, the renderer returns one message per alert without raising, and
each alert's bullet block consists of exactly the present labels' lines
in the fixed order `[alertname, instance, job]` — absent labels are
silently skipped, nothing else is dropped. -/
theorem C7_prometheus_label_robustness (d : Json) (alerts : List Json)
    (_hcls : get_alert_type d = .ok "prometheus-alert")
    (hk : pyGetKey d "alerts" = .ok (.arr alerts))
    (hwf : ∀ a ∈ alerts, ∃ anns title st, pyGetKey a "annotations" = .ok anns ∧
      pyGetKey anns "summary" = .ok title ∧ pyGetKey a "status" = .ok st) :
    ∃ msgs, prometheus_alert_to_markdown d = .ok msgs ∧ msgs.length = alerts.length ∧
      (∀ (i : Nat) (h1 : i < alerts.length) (h2 : i < msgs.length),
        promOne (alerts.get ⟨i, h1⟩) = .ok (msgs.get ⟨i, h2⟩)) ∧
      (∀ a ∈ alerts, promBullets a =
        concatAll ((known_labels.filter (labelPresent a)).map (promLabelLine a))) := by
  have hok : ∀ a ∈ alerts, ∃ m, promOne a = .ok m := by
    intro a ha
    obtain ⟨anns, title, st, h1, h2, h3⟩ := hwf a ha
    exact ⟨_, promOne_ok a anns title st h1 h2 h3⟩
  obtain ⟨msgs, hm, hlen, hidx⟩ := promLoop_map alerts hok
  refine ⟨msgs, ?_, hlen, hidx, ?_⟩
  · unfold prometheus_alert_to_markdown
    rw [hk]
    simpa [pyIterList] using hm
  · intro a ha
    have hb : promBullets a = concatAll (known_labels.map (promLabelLine a)) := rfl
    rw [hb]
    refine concatAll_filter (promLabelLine a) (labelPresent a) known_labels ?_
    intro x hx hpx
    unfold labelPresent at hpx
    unfold promLabelLine
    cases hl : pyAlertLabel a x with
    | ok w => rw [hl] at hpx; simp at hpx
    | error e => simp

/-- C7 witness: the two-alert payload whose second alert lacks `instance`,
classified `prometheus-alert`. -/
theorem C7_witness :
    ∃ msgs, prometheus_alert_to_markdown promLabelsPayload = .ok msgs ∧
      msgs.length = [promAlertFull, promAlertNoInstance].length ∧
      (∀ (i : Nat) (h1 : i < [promAlertFull, promAlertNoInstance].length)
        (h2 : i < msgs.length),
        promOne ([promAlertFull, promAlertNoInstance].get ⟨i, h1⟩) =
          .ok (msgs.get ⟨i, h2⟩)) ∧
      (∀ a ∈ [promAlertFull, promAlertNoInstance], promBullets a =
        concatAll ((known_labels.filter (labelPresent a)).map (promLabelLine a))) :=
  C7_prometheus_label_robustness promLabelsPayload [promAlertFull, promAlertNoInstance]
    rfl rfl (by
      intro a ha
      simp at ha
      rcases ha with rfl | rfl
      · exact ⟨.obj [("summary", .str "S1")], .str "S1", .str "firing", rfl, rfl, rfl⟩
      · exact ⟨.obj [("summary", .str "S2")], .str "S2", .str "resolved", rfl, rfl, rfl⟩)

/-- C8: On the worked example payload the detector classifies
`uptime-kuma-alert` and `get_alert_messages` in normal mode returns
exactly one message that begins with
`**Firing 🔥**: Monitor down: http://x` and contains `**Tags:** prod`. -/
theorem C8_uptime_kuma_example :
    get_alert_type kumaPayload = .ok "uptime-kuma-alert" ∧
    ∃ m, get_alert_messages kumaPayload false = .ok [m] ∧
      listStarts m.data "**Firing 🔥**: Monitor down: http://x".data = true ∧
      strContains m "**Tags:** prod" = true :=
  ⟨rfl, "**Firing 🔥**: Monitor down: http://x\n\n* **Error:** down\n* **Started at:** t0\n* **Tags:** prod\n* **Source:** \"Uptime Kuma\"\n                    ",
   rfl, rfl, rfl⟩

/-- C9: For every payload whose `heartbeat.status` resolves to a value that
equals neither 0 nor 1 under Python equality, the detector never returns
an uptime-kuma classification, and when the slack, grafana and prometheus
probes all decline, it returns `not-found`. -/
theorem C9_heartbeat_fallthrough (d v : Json)
    (hv : heartbeatStatus d = .ok v)
    (h0 : pyEqInt v 0 = false) (h1 : pyEqInt v 1 = false) :
    get_alert_type d ≠ .ok "uptime-kuma-alert" ∧
    get_alert_type d ≠ .ok "uptime-kuma-resolved" ∧
    (slackCheck d = .ok false → grafanaCheck d = .ok none → promCheck d = .ok none →
      get_alert_type d = .ok "not-found") := by
  have hhb : heartbeatCheck d = .ok none := by
    unfold heartbeatCheck
    rw [hv]
    simp [h0, h1]
  refine ⟨?_, ?_, ?_⟩
  · intro h
    unfold get_alert_type at h
    split at h
    · simp_all
    · simp_all
    · rw [hhb] at h
      simp at h
      split at h
      · simp_all
      · rename_i t heq
        injection h with h'
        rcases grafanaCheck_some heq with rfl | rfl <;> simp_all
      · split at h
        · simp_all
        · rename_i t heq
          injection h with h'
          rcases promCheck_some heq with rfl | rfl <;> simp_all
        · simp_all
  · intro h
    unfold get_alert_type at h
    split at h
    · simp_all
    · simp_all
    · rw [hhb] at h
      simp at h
      split at h
      · simp_all
      · rename_i t heq
        injection h with h'
        rcases grafanaCheck_some heq with rfl | rfl <;> simp_all
      · split at h
        · simp_all
        · rename_i t heq
          injection h with h'
          rcases promCheck_some heq with rfl | rfl <;> simp_all
        · simp_all
  · intro hs hg hp
    simp [get_alert_type, hs, hhb, hg, hp]

/-- C9 witness: `{"heartbeat": {"status": 2}}` — status present, neither 0
nor 1; the detector classifies it `not-found`. -/
theorem C9_witness :
    get_alert_type heartbeatOtherPayload ≠ .ok "uptime-kuma-alert" ∧
    get_alert_type heartbeatOtherPayload ≠ .ok "uptime-kuma-resolved" ∧
    (slackCheck heartbeatOtherPayload = .ok false →
     grafanaCheck heartbeatOtherPayload = .ok none →
     promCheck heartbeatOtherPayload = .ok none →
     get_alert_type heartbeatOtherPayload = .ok "not-found") :=
  C9_heartbeat_fallthrough heartbeatOtherPayload (.int 2) rfl rfl rfl

/-- C10: Every non-dict input that nonetheless passes the slack membership
probe on `text` and `attachments` (e.g. a string containing both words)
classifies as `slack-webhook`, and the slack renderer does not raise: it
returns exactly `["Input data must be a dictionary"]`. -/
theorem C10_slack_non_dict (d : Json) (hd : isDict d = false)
    (ht : pyIn "text" d = .ok true) (ha : pyIn "attachments" d = .ok true) :
    get_alert_type d = .ok "slack-webhook" ∧
    convert_slack_webhook_to_markdown d = .ok ["Input data must be a dictionary"] := by
  constructor
  · simp [get_alert_type, slackCheck, ht, ha]
  · simp [convert_slack_webhook_to_markdown, hd]
    rfl

/-- C10 witness: the string `"text attachments"` passes both substring
probes. -/
theorem C10_witness :
    get_alert_type (Json.str "text attachments") = .ok "slack-webhook" ∧
    convert_slack_webhook_to_markdown (Json.str "text attachments") =
      .ok ["Input data must be a dictionary"] :=
  C10_slack_non_dict (Json.str "text attachments") rfl rfl rfl

end Alertbot
